import Mathlib

/-!
Shallow embedding of the seva rotation app (`app.js`): the fixed task
table, the rotation engine `rotatePeople`, the reset operation, and the
remote-reconciliation step `handleRemoteUpdate`, together with theorems
checking the specification's claims about them.
-/

namespace Seva

/-- The fixed, ordered task list (`SEVA_TASKS` in app.js). -/
def SEVA_TASKS : List String :=
  ["Main Hall, Entrance, Coat Closet",
   "Kitchen",
   "Fridges",
   "Upper Rooms and Walkway/Stairs",
   "Upper Washroom",
   "Dastva Hall and Walkway/Stairs",
   "Lower Washroom",
   "Private Washroom and Laundry Room",
   "Basement, Luggage Room and Kitchen",
   "Garbage",
   "Grocery",
   "Yard"]

/-- Per-task capacities (`TASK_CAPACITIES` in app.js), index-aligned with `SEVA_TASKS`. -/
def TASK_CAPACITIES : List Nat := [3, 3, 1, 1, 1, 2, 1, 1, 2, 1, 2, 1]

/-- Default assignments (`DEFAULT_ASSIGNMENTS` in app.js). -/
def DEFAULT_ASSIGNMENTS : List (List String) :=
  [["Het Bhai", "Harsh Bhai", "Avi Bhai"],
   ["Devang Bhai", "Kintul Bhai", "Shreyansh Bhai"],
   ["Rohan Bhai"],
   ["Malav Bhai & Param Bhai"],
   ["Jayraj Bhai"],
   ["Vraj Bhai", "Nisarg Bhai"],
   ["Sheel Bhai"],
   ["Hardik Bhai"],
   ["Heet Bhai", "Pratik Bhai"],
   ["Bhumin Bhai"],
   ["Bhagirath Bhai", "Mann Bhai"],
   ["Volunteer"]]

/-- `SEVA_TASKS[i]` with JavaScript out-of-bounds indexing modelled as a
string that is no task name (in JS it is `undefined`, which is neither
`"Grocery"` nor `"Yard"`). -/
def taskAt (i : Nat) : String := SEVA_TASKS.getD i ""

/-- `TASK_CAPACITIES[i]`; out of bounds the JS loop `j < undefined` runs
zero iterations, which capacity `0` models. -/
def capAt (i : Nat) : Nat := TASK_CAPACITIES.getD i 0

/-- Contribution of one task's occupant list to the rotation pool
(step 1 of `rotatePeople`): Grocery contributes everyone but
"Bhagirath Bhai", Yard contributes nothing, all other tasks contribute
all occupants. -/
def poolContribution (seva : String) (bhakto : List String) : List String :=
  if seva = "Grocery" then bhakto.filter (fun person => person != "Bhagirath Bhai")
  else if seva = "Yard" then []
  else bhakto

/-- Pool collection loop of `rotatePeople`, walking the assignment rows
with their index (the JS loop runs over `currentAssignments.length`). -/
def buildPoolAux : Nat → List (List String) → List String
  | _, [] => []
  | i, bhakto :: rest => poolContribution (taskAt i) bhakto ++ buildPoolAux (i + 1) rest

/-- Step 1 of `rotatePeople`: the rotation pool, in fixed task order. -/
def buildPool (assignments : List (List String)) : List String :=
  buildPoolAux 0 assignments

/-- Step 2 of `rotatePeople`: if the pool is non-empty, `pop` the last
person and `unshift` them to the front. -/
def rotatePool (pool : List String) : List String :=
  match pool.getLast? with
  | none => pool
  | some lastPerson => lastPerson :: pool.dropLast

/-- The new Grocery row in step 3: "Bhagirath Bhai" first, then one
person from the pool cursor when one remains. -/
def groceryRow (pool : List String) : List String :=
  match pool with
  | [] => ["Bhagirath Bhai"]
  | person :: _ => ["Bhagirath Bhai", person]

/-- Step 3 of `rotatePeople`: redistribute the rotated pool over the
rows, walking tasks in order with a single cursor (modelled by passing
the not-yet-consumed suffix of the pool). -/
def redistributeAux : Nat → List (List String) → List String → List (List String)
  | _, [], _ => []
  | i, _ :: rest, pool =>
    if taskAt i = "Yard" then
      ["Volunteer"] :: redistributeAux (i + 1) rest pool
    else if taskAt i = "Grocery" then
      groceryRow pool :: redistributeAux (i + 1) rest pool.tail
    else
      pool.take (capAt i) :: redistributeAux (i + 1) rest (pool.drop (capAt i))

/-- `rotatePeople` from app.js as a pure state transformer: collect the
pool, rotate it, redistribute. -/
def rotatePeople (assignments : List (List String)) : List (List String) :=
  redistributeAux 0 assignments (rotatePool (buildPool assignments))

/-- `resetToDefault` from app.js: replaces the current assignments with a
deep copy of the defaults, whatever they were. -/
def resetToDefault (_assignments : List (List String)) : List (List String) :=
  DEFAULT_ASSIGNMENTS

/-! ### Helper lemmas about the rotation engine -/

lemma exists12 {α : Type} (a : List α) (h : a.length = 12) :
    ∃ r0 r1 r2 r3 r4 r5 r6 r7 r8 r9 r10 r11,
      a = [r0, r1, r2, r3, r4, r5, r6, r7, r8, r9, r10, r11] := by
  rcases a with _ | ⟨r0, _ | ⟨r1, _ | ⟨r2, _ | ⟨r3, _ | ⟨r4, _ | ⟨r5, _ | ⟨r6, _ | ⟨r7, _ | ⟨r8, _ | ⟨r9, _ | ⟨r10, _ | ⟨r11, _ | ⟨r12, t⟩⟩⟩⟩⟩⟩⟩⟩⟩⟩⟩⟩⟩ <;>
    simp_all

/-- Unfolding of the redistribution walk over the twelve fixed tasks:
each Normal task takes its capacity from the cursor, Grocery takes the
sentinel plus at most one, Yard is pinned. Proved by `rfl`, so this is
exactly what `redistributeAux` computes. -/
lemma redistribute_twelve (r0 r1 r2 r3 r4 r5 r6 r7 r8 r9 r10 r11 : List String)
    (pool : List String) :
    redistributeAux 0 [r0, r1, r2, r3, r4, r5, r6, r7, r8, r9, r10, r11] pool =
      [pool.take 3,
       (pool.drop 3).take 3,
       ((pool.drop 3).drop 3).take 1,
       (((pool.drop 3).drop 3).drop 1).take 1,
       ((((pool.drop 3).drop 3).drop 1).drop 1).take 1,
       (((((pool.drop 3).drop 3).drop 1).drop 1).drop 1).take 2,
       ((((((pool.drop 3).drop 3).drop 1).drop 1).drop 1).drop 2).take 1,
       (((((((pool.drop 3).drop 3).drop 1).drop 1).drop 1).drop 2).drop 1).take 1,
       ((((((((pool.drop 3).drop 3).drop 1).drop 1).drop 1).drop 2).drop 1).drop 1).take 2,
       (((((((((pool.drop 3).drop 3).drop 1).drop 1).drop 1).drop 2).drop 1).drop 1).drop 2).take 1,
       groceryRow ((((((((((pool.drop 3).drop 3).drop 1).drop 1).drop 1).drop 2).drop 1).drop 1).drop 2).drop 1),
       ["Volunteer"]] := rfl

/-- Unfolding of the pool collection over the twelve fixed tasks. -/
lemma buildPool_twelve (r0 r1 r2 r3 r4 r5 r6 r7 r8 r9 r10 r11 : List String) :
    buildPool [r0, r1, r2, r3, r4, r5, r6, r7, r8, r9, r10, r11] =
      r0 ++ r1 ++ r2 ++ r3 ++ r4 ++ r5 ++ r6 ++ r7 ++ r8 ++ r9 ++
        r10.filter (fun person => person != "Bhagirath Bhai") := by
  simp [buildPool, buildPoolAux, poolContribution, taskAt, SEVA_TASKS]

lemma rotatePool_eq_of_ne_nil (pool : List String) (h : pool ≠ []) :
    rotatePool pool = pool.getLast h :: pool.dropLast := by
  unfold rotatePool
  rw [List.getLast?_eq_getLast pool h]

lemma rotatePool_perm (pool : List String) : (rotatePool pool).Perm pool := by
  rcases eq_or_ne pool [] with rfl | hne
  · exact List.Perm.refl _
  · rw [rotatePool_eq_of_ne_nil pool hne]
    have h1 := (List.perm_append_singleton (pool.getLast hne) pool.dropLast).symm
    rw [List.dropLast_append_getLast hne] at h1
    exact h1

lemma rotatePool_length (pool : List String) :
    (rotatePool pool).length = pool.length :=
  (rotatePool_perm pool).length_eq

lemma not_mem_rotatePool {pool : List String} {x : String} (h : x ∉ pool) :
    x ∉ rotatePool pool :=
  fun hx => h ((rotatePool_perm pool).mem_iff.mp hx)

/-! ### Claim theorems -/

/-- C1: the engine builds the rotation pool in fixed task order
(`rotatePeople` is exactly redistribute-after-rotate of `buildPool`),
and the pool rotation moves the last element to the front: the pool
`["P1","P2","P3","P4","P5"]` becomes `["P5","P1","P2","P3","P4"]`,
a single-element pool rotates to itself, an empty pool is a no-op, and
in general a non-empty pool rotates to its last element consed onto the
pool without its last element. -/
theorem rotatePool_rotates_last_to_front :
    (∀ assignments, rotatePeople assignments =
      redistributeAux 0 assignments (rotatePool (buildPool assignments))) ∧
    rotatePool ["P1", "P2", "P3", "P4", "P5"] = ["P5", "P1", "P2", "P3", "P4"] ∧
    (∀ x : String, rotatePool [x] = [x]) ∧
    rotatePool ([] : List String) = [] ∧
    ∀ (pool : List String) (h : pool ≠ []),
      rotatePool pool = pool.getLast h :: pool.dropLast := by
  exact ⟨fun _ => rfl, by decide, fun x => rfl, rfl,
    fun pool h => rotatePool_eq_of_ne_nil pool h⟩

/-- Witness for C1: the general last-becomes-first clause applied to the
concrete pool `["A","B","C"]`. -/
theorem rotatePool_rotates_last_to_front_witness :
    rotatePool ["A", "B", "C"] = ["C", "A", "B"] := by
  have h := rotatePool_rotates_last_to_front.2.2.2.2 ["A", "B", "C"] (by decide)
  simpa using h

/-- C7: the pool-rotation step is a permutation — the rotated pool is a
permutation of the original pool (so the multiset of entries is
unchanged) — and the combined-unit label "Malav Bhai & Param Bhai"
travels as one indivisible entry: it occurs exactly once in the default
pool, and rotation preserves its count. -/
theorem rotation_is_permutation :
    (∀ pool : List String, (rotatePool pool).Perm pool) ∧
    (buildPool DEFAULT_ASSIGNMENTS).count "Malav Bhai & Param Bhai" = 1 ∧
    (∀ pool : List String,
      (rotatePool pool).count "Malav Bhai & Param Bhai" =
        pool.count "Malav Bhai & Param Bhai") :=
  ⟨rotatePool_perm, by decide, fun pool => (rotatePool_perm pool).count_eq _⟩

/-- C9: `resetToDefault` is idempotent — applying it twice yields the
same assignment state as applying it once, namely the fixed default
assignment list. -/
theorem reset_idempotent :
    (∀ a : List (List String), resetToDefault (resetToDefault a) = resetToDefault a) ∧
    (∀ a : List (List String), resetToDefault a = DEFAULT_ASSIGNMENTS) :=
  ⟨fun _ => rfl, fun _ => rfl⟩


def groceryIdx : Nat := 10
def yardIdx : Nat := 11

/-- Data-model sentinel discipline (spec section 3): "Volunteer" occurs only
in the Yard row and "Bhagirath Bhai" only in the Grocery row. -/
def sentinelFree (assignments : List (List String)) : Prop :=
  ∀ i, i < assignments.length →
    (i ≠ yardIdx → "Volunteer" ∉ assignments.getD i []) ∧
    (i ≠ yardIdx → i ≠ groceryIdx → "Bhagirath Bhai" ∉ assignments.getD i [])

lemma taskAt_yard_iff (i : Nat) : taskAt i = "Yard" ↔ i = 11 := by
  rcases Nat.lt_or_ge i 12 with h | h
  · interval_cases i <;> simp [taskAt, SEVA_TASKS]
  · rw [taskAt, List.getD_eq_default]
    · constructor
      · intro h2; exact absurd h2 (by decide)
      · omega
    · simpa [SEVA_TASKS] using h

lemma taskAt_grocery_iff (i : Nat) : taskAt i = "Grocery" ↔ i = 10 := by
  rcases Nat.lt_or_ge i 12 with h | h
  · interval_cases i <;> simp [taskAt, SEVA_TASKS]
  · rw [taskAt, List.getD_eq_default]
    · constructor
      · intro h2; exact absurd h2 (by decide)
      · omega
    · simpa [SEVA_TASKS] using h

/-- Anything in row `i` of the redistributed state is the Yard sentinel on
the Yard row, the Grocery sentinel on the Grocery row, or came from the
pool. -/
lemma redistribute_mem (x : String) :
    ∀ (rs : List (List String)) (j : Nat) (pool : List String) (i : Nat),
      x ∈ (redistributeAux j rs pool).getD i [] →
      (taskAt (j + i) = "Yard" ∧ x = "Volunteer") ∨
      (taskAt (j + i) = "Grocery" ∧ x = "Bhagirath Bhai") ∨
      x ∈ pool
  | [], j, pool, i => by
      intro hx
      simp [redistributeAux] at hx
  | r :: rest, j, pool, i => by
      intro hx
      cases i with
      | zero =>
        simp only [Nat.add_zero]
        by_cases hY : taskAt j = "Yard"
        · rw [redistributeAux, if_pos hY] at hx
          simp only [List.getD_cons_zero, List.mem_singleton] at hx
          exact Or.inl ⟨hY, hx⟩
        · by_cases hG : taskAt j = "Grocery"
          · rw [redistributeAux, if_neg hY, if_pos hG] at hx
            simp only [List.getD_cons_zero] at hx
            rcases pool with _ | ⟨p0, ps⟩
            · simp only [groceryRow, List.mem_singleton] at hx
              exact Or.inr (Or.inl ⟨hG, hx⟩)
            · simp only [groceryRow, List.mem_cons, List.not_mem_nil, or_false] at hx
              rcases hx with rfl | rfl
              · exact Or.inr (Or.inl ⟨hG, rfl⟩)
              · exact Or.inr (Or.inr (by simp))
          · rw [redistributeAux, if_neg hY, if_neg hG] at hx
            simp only [List.getD_cons_zero] at hx
            exact Or.inr (Or.inr (List.mem_of_mem_take hx))
      | succ i =>
        have harith : j + 1 + i = j + (i + 1) := by omega
        by_cases hY : taskAt j = "Yard"
        · rw [redistributeAux, if_pos hY] at hx
          simp only [List.getD_cons_succ] at hx
          rcases redistribute_mem x rest (j + 1) pool i hx with h | h | h
          · exact Or.inl (harith ▸ h)
          · exact Or.inr (Or.inl (harith ▸ h))
          · exact Or.inr (Or.inr h)
        · by_cases hG : taskAt j = "Grocery"
          · rw [redistributeAux, if_neg hY, if_pos hG] at hx
            simp only [List.getD_cons_succ] at hx
            rcases redistribute_mem x rest (j + 1) pool.tail i hx with h | h | h
            · exact Or.inl (harith ▸ h)
            · exact Or.inr (Or.inl (harith ▸ h))
            · exact Or.inr (Or.inr (List.mem_of_mem_tail h))
          · rw [redistributeAux, if_neg hY, if_neg hG] at hx
            simp only [List.getD_cons_succ] at hx
            rcases redistribute_mem x rest (j + 1) (pool.drop (capAt j)) i hx with h | h | h
            · exact Or.inl (harith ▸ h)
            · exact Or.inr (Or.inl (harith ▸ h))
            · exact Or.inr (Or.inr (List.mem_of_mem_drop h))

/-- Anything in the rotation pool comes from a row that is not the Yard
row, and is not the Grocery sentinel if it came from the Grocery row. -/
lemma buildPool_mem (x : String) :
    ∀ (rs : List (List String)) (j : Nat),
      x ∈ buildPoolAux j rs →
      ∃ i, i < rs.length ∧ x ∈ rs.getD i [] ∧ taskAt (j + i) ≠ "Yard" ∧
        (taskAt (j + i) = "Grocery" → x ≠ "Bhagirath Bhai")
  | [], j => by
      intro hx
      simp [buildPoolAux] at hx
  | r :: rest, j => by
      intro hx
      rw [buildPoolAux] at hx
      rcases List.mem_append.mp hx with h | h
      · refine ⟨0, by simp, ?_, ?_, ?_⟩ <;>
          unfold poolContribution at h
        · by_cases hG : taskAt j = "Grocery"
          · rw [if_pos hG] at h
            simpa using (List.mem_filter.mp h).1
          · by_cases hY : taskAt j = "Yard"
            · rw [if_neg hG, if_pos hY] at h
              simp at h
            · rw [if_neg hG, if_neg hY] at h
              simpa using h
        · by_cases hG : taskAt j = "Grocery"
          · rw [if_pos hG] at h
            simp only [Nat.add_zero]
            intro hY
            rw [hY] at hG
            exact absurd hG (by decide)
          · by_cases hY : taskAt j = "Yard"
            · rw [if_neg hG, if_pos hY] at h
              simp at h
            · simpa using hY
        · by_cases hG : taskAt j = "Grocery"
          · rw [if_pos hG] at h
            have := (List.mem_filter.mp h).2
            simp only [Nat.add_zero]
            intro _
            simpa using this
          · by_cases hY : taskAt j = "Yard"
            · rw [if_neg hG, if_pos hY] at h
              simp at h
            · simp only [Nat.add_zero]
              intro hGG
              exact absurd hGG hG
      · obtain ⟨i, hi, hmem, hY, hG⟩ := buildPool_mem x rest (j + 1) h
        have harith : j + 1 + i = j + (i + 1) := by omega
        exact ⟨i + 1, by simpa using Nat.succ_lt_succ hi, by simpa using hmem,
          harith ▸ hY, harith ▸ hG⟩

lemma volunteer_not_mem_buildPool {rs : List (List String)}
    (hs : sentinelFree rs) : "Volunteer" ∉ buildPool rs := by
  intro hx
  obtain ⟨i, hi, hmem, hY, _⟩ := buildPool_mem "Volunteer" rs 0 hx
  rw [Nat.zero_add] at hY
  have hiy : i ≠ yardIdx := fun h => hY ((taskAt_yard_iff i).mpr (by simpa [yardIdx] using h))
  exact (hs i hi).1 hiy hmem

lemma bhagirath_not_mem_buildPool {rs : List (List String)}
    (hs : sentinelFree rs) : "Bhagirath Bhai" ∉ buildPool rs := by
  intro hx
  obtain ⟨i, hi, hmem, hY, hG⟩ := buildPool_mem "Bhagirath Bhai" rs 0 hx
  rw [Nat.zero_add] at hY hG
  have hiy : i ≠ yardIdx := fun h => hY ((taskAt_yard_iff i).mpr (by simpa [yardIdx] using h))
  have hig : i ≠ groceryIdx := by
    intro h
    exact hG ((taskAt_grocery_iff i).mpr (by simpa [groceryIdx] using h)) rfl
  exact (hs i hi).2 hiy hig hmem

lemma sentinelFree_redistribute (rs : List (List String)) (p : List String)
    (hV : "Volunteer" ∉ p) (hB : "Bhagirath Bhai" ∉ p) :
    sentinelFree (redistributeAux 0 rs p) := by
  intro i _
  constructor
  · intro hiy hx
    rcases redistribute_mem "Volunteer" rs 0 p i hx with ⟨hY, _⟩ | ⟨_, hbv⟩ | hmem
    · rw [Nat.zero_add] at hY
      exact hiy (by simpa [yardIdx] using (taskAt_yard_iff i).mp hY)
    · exact absurd hbv (by decide)
    · exact hV hmem
  · intro hiy hig hx
    rcases redistribute_mem "Bhagirath Bhai" rs 0 p i hx with ⟨_, hbv⟩ | ⟨hG, _⟩ | hmem
    · exact absurd hbv (by decide)
    · rw [Nat.zero_add] at hG
      exact hig (by simpa [groceryIdx] using (taskAt_grocery_iff i).mp hG)
    · exact hB hmem

lemma groceryRow_head (pool : List String) :
    (groceryRow pool).head? = some "Bhagirath Bhai" := by
  cases pool <;> rfl

/-- C2: after `rotatePeople` on any 12-row assignment state, the Yard
row is exactly `["Volunteer"]` and the Grocery row's first occupant is
exactly "Bhagirath Bhai"; and for any state obeying the data-model
sentinel discipline, neither sentinel enters the rotation pool, and the
discipline is preserved by rotation (so the sentinels never enter the
pool in any state reachable from one obeying it). -/
theorem rotate_pinned_invariants (a : List (List String)) (h : a.length = 12) :
    (rotatePeople a).getD yardIdx [] = ["Volunteer"] ∧
    ((rotatePeople a).getD groceryIdx []).head? = some "Bhagirath Bhai" ∧
    (sentinelFree a →
      "Volunteer" ∉ buildPool a ∧ "Bhagirath Bhai" ∉ buildPool a ∧
      sentinelFree (rotatePeople a)) := by
  obtain ⟨r0, r1, r2, r3, r4, r5, r6, r7, r8, r9, r10, r11, rfl⟩ := exists12 a h
  refine ⟨rfl, groceryRow_head _, fun hs => ?_⟩
  have hV := volunteer_not_mem_buildPool hs
  have hB := bhagirath_not_mem_buildPool hs
  exact ⟨hV, hB,
    sentinelFree_redistribute _ _ (not_mem_rotatePool hV) (not_mem_rotatePool hB)⟩

lemma sentinelFree_default : sentinelFree DEFAULT_ASSIGNMENTS := by
  intro i hi
  simp only [DEFAULT_ASSIGNMENTS, List.length_cons, List.length_nil] at hi
  interval_cases i <;>
    refine ⟨fun h1 => ?_, fun h1 h2 => ?_⟩ <;>
      first
        | exact absurd rfl h1
        | exact absurd rfl h2
        | decide

/-- Witness for C2: the pinned invariants instantiated at the default
assignment state, which obeys the sentinel discipline. -/
theorem rotate_pinned_invariants_witness :
    (rotatePeople DEFAULT_ASSIGNMENTS).getD yardIdx [] = ["Volunteer"] ∧
    ((rotatePeople DEFAULT_ASSIGNMENTS).getD groceryIdx []).head? = some "Bhagirath Bhai" ∧
    "Volunteer" ∉ buildPool DEFAULT_ASSIGNMENTS ∧
    "Bhagirath Bhai" ∉ buildPool DEFAULT_ASSIGNMENTS := by
  have h := rotate_pinned_invariants DEFAULT_ASSIGNMENTS rfl
  have h2 := h.2.2 sentinelFree_default
  exact ⟨h.1, h.2.1, h2.1, h2.2.1⟩

/-! ### Synchronization model (`handleRemoteUpdate`, `saveAssignments`) -/

/-- A polled remote record, the persisted record shape of app.js:
`assignments`, a `timestamp` (modelled in epoch milliseconds, the value
`new Date(...).getTime()` yields), and `lastModifiedBy`, the origin
viewer id. -/
structure RemoteData where
  assignments : List (List String)
  timestamp : Nat
  lastModifiedBy : String
deriving DecidableEq

/-- The client-local state touched by reconciliation: the in-memory
`currentAssignments`, the `LAST_UPDATED_KEY` timestamp in localStorage
(absent on a fresh client), and `syncState.pendingChanges`. -/
structure LocalState where
  currentAssignments : List (List String)
  storedTimestamp : Option Nat
  pendingChanges : Bool
deriving DecidableEq

/-- `new Date(localStorage.getItem(LAST_UPDATED_KEY) || 0).getTime()`:
an absent key parses as time `0`. -/
def localTimestampOf (st : LocalState) : Nat := st.storedTimestamp.getD 0

/-- Result of one reconciliation step: the new local state and whether
the state-changed hook (`renderTable` and the update display) fired. -/
structure UpdateResult where
  state : LocalState
  stateChanged : Bool
deriving DecidableEq

/-- `handleRemoteUpdate` from app.js: skip a self-echo (same viewer id,
timestamps within 500 ms) but clear the pending flag; adopt the remote
record wholesale when it is newer or no local timestamp is recorded;
otherwise keep the local state. -/
def handleRemoteUpdate (viewerId : String) (st : LocalState) (remote : RemoteData) :
    UpdateResult :=
  let localTimestamp := localTimestampOf st
  let timeDiff : Int := (remote.timestamp : Int) - (localTimestamp : Int)
  if remote.lastModifiedBy = viewerId ∧ timeDiff.natAbs < 500 then
    { state := { st with pendingChanges := false }, stateChanged := false }
  else if remote.timestamp > localTimestamp ∨ localTimestamp = 0 then
    { state := { currentAssignments := remote.assignments,
                 storedTimestamp := some remote.timestamp,
                 pendingChanges := false },
      stateChanged := true }
  else
    { state := st, stateChanged := false }

/-- The part of `saveAssignments` from app.js that reconciliation sees:
record the save time under `LAST_UPDATED_KEY` and mark pending changes
for a later push. -/
def saveAssignments (now : Nat) (st : LocalState) : LocalState :=
  { st with storedTimestamp := some now, pendingChanges := true }

/-- C3: last-write-wins reconciliation. When the polled record is not a
self-echo, a strictly newer remote timestamp (or an absent local
timestamp) makes the client adopt the remote record wholesale — remote
assignments and remote timestamp replace the local ones, the pending
flag is cleared, and the state-changed hook fires — while a stale or
equal remote (with a local timestamp present) leaves the local state
untouched and fires nothing. -/
theorem handleRemoteUpdate_last_write_wins
    (viewerId : String) (st : LocalState) (remote : RemoteData)
    (hecho : ¬ (remote.lastModifiedBy = viewerId ∧
      ((remote.timestamp : Int) - (localTimestampOf st : Int)).natAbs < 500)) :
    ((remote.timestamp > localTimestampOf st ∨ localTimestampOf st = 0) →
      handleRemoteUpdate viewerId st remote =
        { state := { currentAssignments := remote.assignments,
                     storedTimestamp := some remote.timestamp,
                     pendingChanges := false },
          stateChanged := true }) ∧
    ((remote.timestamp ≤ localTimestampOf st ∧ localTimestampOf st ≠ 0) →
      handleRemoteUpdate viewerId st remote = { state := st, stateChanged := false }) := by
  constructor
  · intro hnew
    rw [handleRemoteUpdate, if_neg hecho, if_pos hnew]
  · intro ⟨hle, hne⟩
    rw [handleRemoteUpdate, if_neg hecho, if_neg]
    omega

/-- Witness for C3: a fresh remote record at time 1000 from another
viewer beats a local record at time 100, and a remote record at time 50
loses to it. -/
theorem handleRemoteUpdate_last_write_wins_witness :
    handleRemoteUpdate "viewer-B"
        { currentAssignments := [["A"]], storedTimestamp := some 100,
          pendingChanges := true }
        { assignments := [["R"]], timestamp := 1000, lastModifiedBy := "viewer-A" } =
      { state := { currentAssignments := [["R"]], storedTimestamp := some 1000,
                   pendingChanges := false },
        stateChanged := true } ∧
    handleRemoteUpdate "viewer-B"
        { currentAssignments := [["A"]], storedTimestamp := some 100,
          pendingChanges := false }
        { assignments := [["R"]], timestamp := 50, lastModifiedBy := "viewer-A" } =
      { state := { currentAssignments := [["A"]], storedTimestamp := some 100,
                   pendingChanges := false },
        stateChanged := false } := by
  constructor
  · exact (handleRemoteUpdate_last_write_wins "viewer-B"
      { currentAssignments := [["A"]], storedTimestamp := some 100, pendingChanges := true }
      { assignments := [["R"]], timestamp := 1000, lastModifiedBy := "viewer-A" }
      (by decide)).1 (by decide)
  · exact (handleRemoteUpdate_last_write_wins "viewer-B"
      { currentAssignments := [["A"]], storedTimestamp := some 100, pendingChanges := false }
      { assignments := [["R"]], timestamp := 50, lastModifiedBy := "viewer-A" }
      (by decide)).2 (by decide)

/-- C4: self-echo suppression. A polled record carrying the local
viewer's own id whose timestamp is within 500 ms of the local one is
discarded: the local assignments and stored timestamp are untouched and
the state-changed hook does not fire. -/
theorem handleRemoteUpdate_self_echo_discard
    (viewerId : String) (st : LocalState) (remote : RemoteData)
    (hid : remote.lastModifiedBy = viewerId)
    (hnear : ((remote.timestamp : Int) - (localTimestampOf st : Int)).natAbs < 500) :
    (handleRemoteUpdate viewerId st remote).state.currentAssignments =
      st.currentAssignments ∧
    (handleRemoteUpdate viewerId st remote).state.storedTimestamp =
      st.storedTimestamp ∧
    (handleRemoteUpdate viewerId st remote).stateChanged = false := by
  rw [handleRemoteUpdate, if_pos ⟨hid, hnear⟩]
  exact ⟨rfl, rfl, rfl⟩

/-- Witness for C4: an echo of one's own push (same viewer "me",
timestamps 1000 and 1200) is discarded. -/
theorem handleRemoteUpdate_self_echo_discard_witness :
    (handleRemoteUpdate "me"
        { currentAssignments := [["A"]], storedTimestamp := some 1000,
          pendingChanges := true }
        { assignments := [["R"]], timestamp := 1200, lastModifiedBy := "me" }).state.currentAssignments = [["A"]] ∧
    (handleRemoteUpdate "me"
        { currentAssignments := [["A"]], storedTimestamp := some 1000,
          pendingChanges := true }
        { assignments := [["R"]], timestamp := 1200, lastModifiedBy := "me" }).stateChanged = false := by
  have h := handleRemoteUpdate_self_echo_discard "me"
    { currentAssignments := [["A"]], storedTimestamp := some 1000, pendingChanges := true }
    { assignments := [["R"]], timestamp := 1200, lastModifiedBy := "me" }
    rfl (by decide)
  exact ⟨h.1, h.2.2⟩

/-- C10 (implicit): in the self-echo branch, `handleRemoteUpdate` leaves
the assignments and the stored timestamp unchanged but sets the pending
flag to `false`. In particular a local change just marked pending by
`saveAssignments` loses its pending marker when an echo (same viewer,
record timestamp within 500 ms of the save time) is polled, without any
state adoption or state-changed notification. -/
theorem echo_clears_pending_flag
    (viewerId : String) (st : LocalState) (remote : RemoteData) (now : Nat)
    (hid : remote.lastModifiedBy = viewerId)
    (hnear : ((remote.timestamp : Int) - (now : Int)).natAbs < 500) :
    (saveAssignments now st).pendingChanges = true ∧
    handleRemoteUpdate viewerId (saveAssignments now st) remote =
      { state := { currentAssignments := st.currentAssignments,
                   storedTimestamp := some now,
                   pendingChanges := false },
        stateChanged := false } := by
  refine ⟨rfl, ?_⟩
  have hlocal : localTimestampOf (saveAssignments now st) = now := rfl
  rw [handleRemoteUpdate, if_pos ⟨hid, by rw [hlocal]; exact hnear⟩]
  rfl

/-- Witness for C10: a pending local save at time 1000 loses its pending
flag to an echo stamped 1400 without its assignments changing. -/
theorem echo_clears_pending_flag_witness :
    (saveAssignments 1000
        { currentAssignments := [["A"]], storedTimestamp := some 1, pendingChanges := false }).pendingChanges = true ∧
    handleRemoteUpdate "me"
        (saveAssignments 1000
          { currentAssignments := [["A"]], storedTimestamp := some 1, pendingChanges := false })
        { assignments := [["R"]], timestamp := 1400, lastModifiedBy := "me" } =
      { state := { currentAssignments := [["A"]], storedTimestamp := some 1000,
                   pendingChanges := false },
        stateChanged := false } :=
  echo_clears_pending_flag "me"
    { currentAssignments := [["A"]], storedTimestamp := some 1, pendingChanges := false }
    { assignments := [["R"]], timestamp := 1400, lastModifiedBy := "me" }
    1000 rfl (by decide)


/-- Per-row pool-eligible headcount in the spec's terms: Normal rows
count all occupants, the Grocery row counts occupants other than the
sentinel, the Yard row counts nothing. -/
def eligibleCountAux : Nat → List (List String) → Nat
  | _, [] => 0
  | i, bhakto :: rest =>
    (if taskAt i = "Grocery" then
       (bhakto.filter (fun person => person != "Bhagirath Bhai")).length
     else if taskAt i = "Yard" then 0
     else bhakto.length) + eligibleCountAux (i + 1) rest

/-- Total pool-eligible headcount of a state. -/
def eligibleCount (assignments : List (List String)) : Nat :=
  eligibleCountAux 0 assignments

/-- Slots the redistribution step can fill: each Normal task's capacity
plus the single non-sentinel Grocery slot; the Yard slot is pinned. -/
def distributableCapacity : Nat :=
  ((List.range SEVA_TASKS.length).map (fun i =>
    if taskAt i = "Grocery" then 1
    else if taskAt i = "Yard" then 0
    else capAt i)).sum

lemma distributableCapacity_eq : distributableCapacity = 17 := by decide

lemma buildPoolAux_length_eq :
    ∀ (rs : List (List String)) (j : Nat),
      (buildPoolAux j rs).length = eligibleCountAux j rs
  | [], _ => rfl
  | r :: rest, j => by
    rw [buildPoolAux, eligibleCountAux, List.length_append,
      buildPoolAux_length_eq rest (j + 1)]
    congr 1
    unfold poolContribution
    by_cases hG : taskAt j = "Grocery"
    · rw [if_pos hG, if_pos hG]
    · by_cases hY : taskAt j = "Yard"
      · rw [if_neg hG, if_pos hY, if_neg hG, if_pos hY]
        rfl
      · rw [if_neg hG, if_neg hY, if_neg hG, if_neg hY]

lemma redistributeAux_length :
    ∀ (rs : List (List String)) (j : Nat) (pool : List String),
      (redistributeAux j rs pool).length = rs.length
  | [], _, _ => rfl
  | r :: rest, j, pool => by
    rw [redistributeAux]
    by_cases hY : taskAt j = "Yard"
    · rw [if_pos hY]
      simp [redistributeAux_length rest]
    · by_cases hG : taskAt j = "Grocery"
      · rw [if_neg hY, if_pos hG]
        simp [redistributeAux_length rest]
      · rw [if_neg hY, if_neg hG]
        simp [redistributeAux_length rest]

/-- Headcount of the pool rebuilt from a redistributed 12-row state:
`min` of the pool size and the 17 distributable slots. -/
lemma buildPool_redistribute_length
    (r0 r1 r2 r3 r4 r5 r6 r7 r8 r9 r10 r11 : List String)
    (p : List String) (hbp : "Bhagirath Bhai" ∉ p) :
    (buildPool (redistributeAux 0 [r0, r1, r2, r3, r4, r5, r6, r7, r8, r9, r10, r11] p)).length =
      min p.length 17 := by
  rw [redistribute_twelve, buildPool_twelve]
  simp only [List.drop_drop]
  rcases hd : p.drop 16 with _ | ⟨p0, ps⟩
  · have h16 : p.length ≤ 16 := List.drop_eq_nil_iff.mp hd
    simp [groceryRow, List.length_take, List.length_drop]
    omega
  · have h17 : 17 ≤ p.length := by
      have := congrArg List.length hd
      simp [List.length_drop] at this
      omega
    have hp0 : p0 ≠ "Bhagirath Bhai" := by
      intro he
      exact hbp (he ▸ List.mem_of_mem_drop (hd ▸ List.mem_cons_self p0 ps))
    simp [groceryRow, hp0, List.length_take, List.length_drop]
    omega

/-- C5 (amended): for a valid 12-row state whose pool does not carry the
Grocery sentinel, the rotation-pool size equals the total occupant count
of the Normal rows plus the Grocery row minus the sentinel; the result
state has the same row count and task ordering; and the pool-eligible
headcount after `rotatePeople` is the minimum of the pool size and the
17 distributable slots — so the headcount is preserved exactly when the
pool size does not exceed the distributable capacity, and the surplus
tail is silently dropped when it does. -/
theorem rotate_headcount (a : List (List String)) (h : a.length = 12)
    (hbb : "Bhagirath Bhai" ∉ buildPool a) :
    (buildPool a).length = eligibleCount a ∧
    (rotatePeople a).length = a.length ∧
    (buildPool (rotatePeople a)).length =
      min (buildPool a).length distributableCapacity ∧
    ((buildPool a).length ≤ distributableCapacity →
      (buildPool (rotatePeople a)).length = (buildPool a).length) := by
  obtain ⟨r0, r1, r2, r3, r4, r5, r6, r7, r8, r9, r10, r11, rfl⟩ := exists12 a h
  have hlen := rotatePool_length (buildPool [r0, r1, r2, r3, r4, r5, r6, r7, r8, r9, r10, r11])
  have hkey := buildPool_redistribute_length r0 r1 r2 r3 r4 r5 r6 r7 r8 r9 r10 r11
    (rotatePool (buildPool [r0, r1, r2, r3, r4, r5, r6, r7, r8, r9, r10, r11]))
    (not_mem_rotatePool hbb)
  refine ⟨buildPoolAux_length_eq _ 0, redistributeAux_length _ 0 _, ?_, ?_⟩
  · rw [rotatePeople, hkey, hlen, distributableCapacity_eq]
  · intro hle
    rw [distributableCapacity_eq] at hle
    rw [rotatePeople, hkey, hlen]
    omega

def bigState : List (List String) :=
  [["P01", "P02", "P03", "P04", "P05", "P06", "P07", "P08", "P09", "P10",
    "P11", "P12", "P13", "P14", "P15", "P16", "P17", "P18", "P19", "P20"],
   [], [], [], [], [], [], [], [], [], ["Bhagirath Bhai"], ["Volunteer"]]

/-- Counterexample to C5 as stated: in `bigState` no task capacity (nor
even the full capacity sum) exceeds the pool size of 20, yet the
headcount is not preserved — rotation truncates it to 17. -/
theorem headcount_claim_counterexample :
    (∀ i, i < 12 → TASK_CAPACITIES.getD i 0 ≤ (buildPool bigState).length) ∧
    TASK_CAPACITIES.sum ≤ (buildPool bigState).length ∧
    (buildPool bigState).length = 20 ∧
    (buildPool (rotatePeople bigState)).length = 17 := by decide

def emptyState : List (List String) :=
  [[], [], [], [], [], [], [], [], [], [], [], []]

/-- Counterexample to C6 as stated: rotating the all-empty 12-row state
leaves the occupant lengths far from the capacities. -/
theorem capacity_claim_counterexample :
    (rotatePeople emptyState).map List.length ≠ TASK_CAPACITIES := by decide

/-- C6 (amended): after a `rotatePeople` run on a 12-row state whose
rotation pool fills all 17 distributable slots (as every rotation from
the default state does), every task's occupant count equals its
capacity. -/
theorem rotate_fills_capacities (a : List (List String)) (h : a.length = 12)
    (hpool : distributableCapacity ≤ (buildPool a).length) :
    (rotatePeople a).map List.length = TASK_CAPACITIES := by
  obtain ⟨r0, r1, r2, r3, r4, r5, r6, r7, r8, r9, r10, r11, rfl⟩ := exists12 a h
  rw [distributableCapacity_eq] at hpool
  have hlen := rotatePool_length (buildPool [r0, r1, r2, r3, r4, r5, r6, r7, r8, r9, r10, r11])
  rw [rotatePeople, redistribute_twelve]
  simp only [List.drop_drop, List.map_cons, List.map_nil]
  rcases hd : (rotatePool (buildPool [r0, r1, r2, r3, r4, r5, r6, r7, r8, r9, r10, r11])).drop 16
    with _ | ⟨p0, ps⟩
  · exfalso
    have h16 := List.drop_eq_nil_iff.mp hd
    omega
  · simp [groceryRow, List.length_take, List.length_drop, TASK_CAPACITIES]
    omega

/-- Witness for C5: the default state has a pool of 17, exactly the
distributable capacity, and its headcount is preserved. -/
theorem rotate_headcount_witness :
    (buildPool DEFAULT_ASSIGNMENTS).length = eligibleCount DEFAULT_ASSIGNMENTS ∧
    (buildPool (rotatePeople DEFAULT_ASSIGNMENTS)).length =
      (buildPool DEFAULT_ASSIGNMENTS).length := by
  have h := rotate_headcount DEFAULT_ASSIGNMENTS rfl (by decide)
  exact ⟨h.1, h.2.2.2 (by decide)⟩

/-- Witness for C6: rotating the default state restores every occupant
list to exactly its task's capacity. -/
theorem rotate_fills_capacities_witness :
    (rotatePeople DEFAULT_ASSIGNMENTS).map List.length = TASK_CAPACITIES :=
  rotate_fills_capacities DEFAULT_ASSIGNMENTS rfl (by decide)

/-- Modelled from the spec: the fail-fast input validation the spec's
error-handling section prescribes for the rotation engine — reject a
state whose row count disagrees with the fixed task list instead of
proceeding. This validation is absent from app.js; the definition
exists to be compared against `rotatePeople`. -/
def rotatePeopleChecked (assignments : List (List String)) :
    Except String (List (List String)) :=
  if assignments.length ≠ SEVA_TASKS.length then
    Except.error "malformed state: wrong length"
  else
    Except.ok (rotatePeople assignments)

/-- Counterexample to C8: on a wrong-length state the engine does not
fail fast — it silently redistributes over just the given rows (here
emptying the second row), where the spec-prescribed checked engine
returns an error. -/
theorem malformed_input_counterexample :
    rotatePeople [["A"], ["B"]] = [["B", "A"], []] ∧
    rotatePeopleChecked [["A"], ["B"]] =
      Except.error "malformed state: wrong length" :=
  ⟨rfl, rfl⟩

/-- C8 (amended): `rotatePeople` performs no input validation and raises
no error: on any state, also one of malformed length, it returns an
ordinary redistributed state with exactly as many rows as the input,
silently leaving the remaining tasks unconsidered. -/
theorem rotate_no_validation :
    (∀ a : List (List String), (rotatePeople a).length = a.length) ∧
    rotatePeople [["A"], ["B"]] = [["B", "A"], []] :=
  ⟨fun a => redistributeAux_length a 0 _, by decide⟩

end Seva
